import Mathlib

/-!
Verification of the BigVods Twitch-VOD archiver against its specification.

The development shallowly embeds the Python source (src/main.py, src/downloader.py,
src/twitch_api.py, src/youtube_upload.py) as pure Lean functions.  File contents are
modelled as parsed JSON values, external collaborators (yt-dlp, the Twitch Helix API,
the YouTube Data API) as injected outcomes, and the side effects of a pipeline run as
an explicit event trace.
-/

namespace BigVods

/-- Parsed JSON values, as produced by Python's `json.load`.  Object fields keep
their textual order (Python dicts preserve insertion order). -/
inductive Json where
  | null
  | bool (b : Bool)
  | num (n : Int)
  | str (s : String)
  | arr (xs : List Json)
  | obj (fields : List (String × Json))

/-- Key lookup in an insertion-ordered dictionary (Python `d[k]` / `k in d`). -/
def getKey : List (String × Json) → String → Option Json
  | [], _ => none
  | (k1, v1) :: rest, k => if k1 = k then some v1 else getKey rest k

/-- Key assignment in an insertion-ordered dictionary (Python `d[k] = v`):
overwrites in place if the key exists, otherwise appends at the end. -/
def setKey : List (String × Json) → String → Json → List (String × Json)
  | [], k, v => [(k, v)]
  | (k1, v1) :: rest, k, v =>
    if k1 = k then (k, v) :: rest else (k1, v1) :: setKey rest k v

/-- Dict comprehension `{s: g(s) for s in ids}`: left-to-right insertion,
later duplicates overwrite earlier ones. -/
def buildDict (g : String → Json) (ids : List String) : List (String × Json) :=
  ids.foldl (fun d s => setKey d s (g s)) []

/-- Extracts the id strings of a legacy checkpoint array, when every element is a
string.  A legacy array holding a non-string element is outside this model: there
Python would build non-string dictionary keys (or raise `TypeError` on unhashable
elements), which the string-keyed dictionary model cannot represent. -/
def asStrings : List Json → Option (List String)
  | [] => some []
  | Json.str s :: rest => (asStrings rest).map (s :: ·)
  | _ => none

/-- Python `None`-or-string turned into the JSON value `json.dump` would write. -/
def jsonOfOpt : Option String → Json
  | none => Json.null
  | some s => Json.str s

def Json.isObj : Json → Bool
  | .obj _ => true
  | _ => false

def Json.isArr : Json → Bool
  | .arr _ => true
  | _ => false

/-- State of the persisted checkpoint file `processed_vods.json`: absent
(`FileNotFoundError`), present but not valid JSON (`json.JSONDecodeError`), or
holding a parsed JSON value. -/
inductive FileState where
  | missing
  | corrupt
  | json (j : Json)

/-- Error raised by the legacy-array conversion when the array holds non-string
elements (see `asStrings`). -/
inductive PyError where
  | typeErr

/-- `VODArchiver._load_processed` (src/main.py lines 91-103): missing file or
corrupt JSON yields the empty store; a legacy bare list of ids is converted in
memory to `{vod_id: {"twitch_id": vod_id}}`; any other parsed value is returned
as-is. -/
def loadProcessed : FileState → Except PyError Json
  | .missing => .ok (.obj [])
  | .corrupt => .ok (.obj [])
  | .json (.arr ids) =>
    match asStrings ids with
    | some ss => .ok (.obj (buildDict (fun s => .obj [("twitch_id", .str s)]) ss))
    | none => .error .typeErr
  | .json j => .ok j

/-- The entry `_migrate_processed_format` writes for one legacy id
(src/main.py lines 120-128). -/
def migrateEntryJson (s : String) : Json :=
  .obj [("twitch_id", .str s), ("youtube_id", .null), ("title", .null),
        ("uploaded_at", .null)]

/-- `VODArchiver._migrate_processed_format` (src/main.py lines 110-133): re-reads
the raw file; if it is still a bare list, replaces the in-memory store with full
migrated entries and saves immediately; missing/corrupt file or any other shape
leaves the store and the file untouched. -/
def migrateProcessedFormat (file : FileState) (processed : Json) :
    Except PyError (Json × FileState) :=
  match file with
  | .json (.arr ids) =>
    match asStrings ids with
    | some ss =>
      let m := buildDict migrateEntryJson ss
      .ok (.obj m, .json (.obj m))
    | none => .error .typeErr
  | _ => .ok (processed, file)

/-- Controller startup (`VODArchiver.__init__`, src/main.py lines 74-78): load the
persisted store, then run the one-time legacy migration.  Returns the in-memory
store and the resulting persisted file. -/
def startupProcessed (file : FileState) : Except PyError (Json × FileState) :=
  match loadProcessed file with
  | .error e => .error e
  | .ok p => migrateProcessedFormat file p

/-- The `is_processed` query used by `check_for_new_vods` (src/main.py line 238):
`vod_id not in self.processed_vods`, negated. -/
def isProcessed (processed : List (String × Json)) (vodId : String) : Bool :=
  (getKey processed vodId).isSome

/- ### Dictionary lemmas -/

theorem getKey_setKey (d : List (String × Json)) (k : String) (v : Json)
    (k' : String) :
    getKey (setKey d k v) k' = if k' = k then some v else getKey d k' := by
  induction d with
  | nil =>
    by_cases h : k' = k
    · subst h; simp [setKey, getKey]
    · have h2 : ¬(k = k') := fun hh => h hh.symm
      simp [setKey, getKey, h, h2]
  | cons hd tl ih =>
    obtain ⟨k1, v1⟩ := hd
    by_cases h1 : k1 = k
    · subst h1
      simp only [setKey, if_pos rfl, getKey]
      by_cases h2 : k' = k1
      · subst h2; simp
      · have h3 : ¬(k1 = k') := fun hh => h2 hh.symm
        simp [h2, h3]
    · simp only [setKey, if_neg h1, getKey, ih]
      split_ifs <;> simp_all

theorem getKey_foldl_setKey (g : String → Json) (ss : List String)
    (d : List (String × Json)) (k : String) :
    getKey (ss.foldl (fun d s => setKey d s (g s)) d) k =
      if k ∈ ss then some (g k) else getKey d k := by
  induction ss generalizing d with
  | nil => simp
  | cons s rest ih =>
    simp only [List.foldl_cons]
    rw [ih, getKey_setKey]
    by_cases hr : k ∈ rest
    · simp [hr]
    · by_cases hs : k = s
      · subst hs; simp [hr]
      · simp [hr, hs]

theorem getKey_buildDict (g : String → Json) (ss : List String) (k : String) :
    getKey (buildDict g ss) k = if k ∈ ss then some (g k) else none := by
  simp [buildDict, getKey_foldl_setKey, getKey]

theorem asStrings_map_str (ss : List String) :
    asStrings (ss.map Json.str) = some ss := by
  induction ss with
  | nil => rfl
  | cons s rest ih => simp [asStrings, ih]

/- ### Archiver state and the item pipeline (src/main.py) -/

/-- A candidate VOD record as returned by `TwitchAPI.get_vods`
(src/twitch_api.py lines 101-111): every record carries these fields. -/
structure Vod where
  id : String
  title : String
  createdAt : String
  duration : String
  url : String
  thumbnailUrl : String
  description : String
  deriving DecidableEq, Repr

/-- The archiver's mutable state: the in-memory `self.processed_vods` dictionary
and the persisted `processed_vods.json` file. -/
structure ArchiverState where
  processedVods : List (String × Json)
  file : FileState

/-- Python truthiness of an optional-string collaborator result:
`None` and the empty string are falsy. -/
def truthy : Option String → Bool
  | none => false
  | some s => !(s == "")

/-- `VODArchiver._mark_processed` (src/main.py lines 135-144): upsert the entry
and synchronously persist the whole store (`_save_processed`, lines 105-108).
`now` injects `datetime.now().isoformat()`. -/
def markProcessed (st : ArchiverState) (vodId : String)
    (youtubeId title streamDate : Option String) (now : String) : ArchiverState :=
  let entry : Json := .obj [("twitch_id", .str vodId), ("youtube_id", jsonOfOpt youtubeId),
    ("title", jsonOfOpt title), ("stream_date", jsonOfOpt streamDate),
    ("uploaded_at", .str now)]
  let pv := setKey st.processedVods vodId entry
  { processedVods := pv, file := .json (.obj pv) }

/-- Observable side effects of one pipeline run, in temporal order. -/
inductive Event where
  | fetchCalled (vodId : String)
  | cleanupPartial (vodId : String)
  | publishCalled (vodId : String)
  | deleteFile (path : String)
  | checkpoint (vodId : String)
  deriving DecidableEq, Repr

/-- Injected outcomes of the external collaborators for a cycle.
`downloadResult v` is what `self.downloader.download(...)` returns for `v`
(path or `None`), `uploadResult v` what `self.uploader.upload(...)` returns
(video id or `None`).  The playlist lookup of `run_once` (src/main.py lines
272-279) only chooses the collection id passed to `upload` and cannot change
control flow (failure merely logs a warning), so it is absorbed into
`uploadResult`. -/
structure PipelineEnv where
  lister : List Vod
  uploadAuth : Bool
  downloadResult : Vod → Option String
  uploadResult : Vod → Option String
  deleteAfterUpload : Bool
  now : String

/-- `VODArchiver.process_vod` (src/main.py lines 159-209): download; on falsy
result clean up partial downloads and fail.  Upload; on falsy result keep the
file and fail.  On success delete the local file if configured, then mark the
VOD processed.  Returns the success flag, the new state, and the event trace. -/
def process_vod (env : PipelineEnv) (st : ArchiverState) (vod : Vod) :
    Bool × ArchiverState × List Event :=
  match env.downloadResult vod with
  | none => (false, st, [.fetchCalled vod.id, .cleanupPartial vod.id])
  | some fp =>
    if fp = "" then (false, st, [.fetchCalled vod.id, .cleanupPartial vod.id])
    else
      match env.uploadResult vod with
      | none => (false, st, [.fetchCalled vod.id, .publishCalled vod.id])
      | some vid =>
        if vid = "" then (false, st, [.fetchCalled vod.id, .publishCalled vod.id])
        else
          let st1 := markProcessed st vod.id (some vid) (some vod.title)
            (some vod.createdAt) env.now
          (true, st1,
            [.fetchCalled vod.id, .publishCalled vod.id] ++
              (if env.deleteAfterUpload then [Event.deleteFile fp] else []) ++
              [.checkpoint vod.id])

/-- Whether the two injected collaborator results let `process_vod` succeed. -/
def vodSucceeds (env : PipelineEnv) (vod : Vod) : Bool :=
  truthy (env.downloadResult vod) && truthy (env.uploadResult vod)

/-- `VODArchiver.check_for_new_vods` (src/main.py lines 228-254): keep the listed
VODs whose id is not in the processed store. -/
def checkForNewVods (env : PipelineEnv) (st : ArchiverState) : List Vod :=
  env.lister.filter (fun v => (getKey st.processedVods v.id).isNone)

/-- The `for vod in new_vods` loop of `run_once` (src/main.py lines 281-287):
count successes, break at the first failure. -/
def processLoop (env : PipelineEnv) : ArchiverState → List Vod →
    Nat × ArchiverState × List Event
  | st, [] => (0, st, [])
  | st, v :: rest =>
    let r := process_vod env st v
    if r.1 then
      let w := processLoop env r.2.1 rest
      (w.1 + 1, w.2.1, r.2.2 ++ w.2.2)
    else (0, r.2.1, r.2.2)

/-- `VODArchiver.run_once` (src/main.py lines 256-289): filter candidates, bail
out with 0 on an empty list or failed publisher authentication, otherwise run the
pipeline per candidate in order, stopping at the first failure. -/
def run_once (env : PipelineEnv) (st : ArchiverState) :
    Nat × ArchiverState × List Event :=
  let newVods := checkForNewVods env st
  if newVods.isEmpty then (0, st, [])
  else if !env.uploadAuth then (0, st, [])
  else processLoop env st newVods

/-- The ids of the candidates a trace attempted, i.e. for which the pipeline
invoked the fetch step. -/
def attemptedIds (evs : List Event) : List String :=
  evs.filterMap fun e =>
    match e with
    | .fetchCalled i => some i
    | _ => none

/-- Whether the persisted checkpoint file contains an entry for an id. -/
def fileHasEntry (fs : FileState) (vodId : String) : Bool :=
  match fs with
  | .json (.obj m) => (getKey m vodId).isSome
  | _ => false

/- ### Downloader (src/downloader.py) -/

/-- One entry of the download directory as seen by `Path.iterdir`:
its final name, whether it is a regular file, and its `st_size`. -/
structure DirFile where
  name : String
  isFile : Bool
  size : Nat
  deriving DecidableEq, Repr

/-- Python `name.startswith(pre)`, evaluated on the character sequences. -/
def strStarts (s pre : String) : Bool :=
  pre.toList.isPrefixOf s.toList

/-- Index of the last occurrence of a character (Python `name.rfind(c)`,
with `none` for the -1 case). -/
def rfindChar (c : Char) : List Char → Option Nat
  | [] => none
  | a :: rest =>
    match rfindChar c rest with
    | some i => some (i + 1)
    | none => if a = c then some 0 else none

/-- `pathlib.PurePath.suffix`: the part of the name from its last dot on,
empty when the last dot is absent, leading, or trailing. -/
def pySuffix (name : String) : String :=
  let cs := name.toList
  match rfindChar '.' cs with
  | none => ""
  | some i => if 0 < i ∧ i < cs.length - 1 then String.mk (cs.drop i) else ""

/-- Python `str.lower()` restricted to the ASCII range, which is all the
comparison against the extension list needs. -/
def lowerStr (s : String) : String :=
  String.mk (s.toList.map Char.toLower)

/-- The recognized media extensions of `_find_existing_file`
(src/downloader.py line 124). -/
def mediaExts : List String := [".mp4", ".mkv", ".webm", ".ts", ".flv"]

/-- The test `_find_existing_file` applies to one directory entry
(src/downloader.py lines 121-125): `{vod_id}_` name prefix, regular file,
recognized lower-cased suffix, non-zero size. -/
def matchesExisting (vodId : String) (f : DirFile) : Bool :=
  strStarts f.name (vodId ++ "_") && f.isFile &&
    mediaExts.contains (lowerStr (pySuffix f.name)) && decide (0 < f.size)

/-- Injected environment of one `VODDownloader.download` call: the directory
snapshot `iterdir` sees (with a flag for the `except Exception` path of
`_find_existing_file`), the free disk space, and the outcome of the yt-dlp
invocation (whether it raised, what the progress hook recorded, whether that
recorded path exists, and the directory listing after the attempt). -/
structure DownloadEnv where
  dirPath : String
  dirListing : List DirFile
  iterdirRaises : Bool
  freeBytes : Nat
  fetchRaises : Bool
  hookFile : Option String
  hookFileExists : Bool
  dirAfter : List DirFile
  deriving Repr

/-- `str(file)` for an entry of the download directory. -/
def filePathOf (env : DownloadEnv) (f : DirFile) : String :=
  env.dirPath ++ "/" ++ f.name

/-- `VODDownloader._find_existing_file` (src/downloader.py lines 118-128):
first directory entry passing `matchesExisting`, `none` when none does or
iteration raised. -/
def findExistingFile (env : DownloadEnv) (vodId : String) : Option String :=
  if env.iterdirRaises then none
  else
    match env.dirListing.find? (matchesExisting vodId) with
    | some f => some (filePathOf env f)
    | none => none

/-- `VODDownloader.check_disk_space` (src/downloader.py lines 83-107) at the
arguments `download` passes (lines 188-190): `estimated_size` 10 GiB and
`min_free_gb` 5.0. -/
def hasDiskSpace (freeBytes : Nat) : Bool :=
  let minFreeBytes := 5 * 1024 * 1024 * 1024
  let estimatedMaxSize := 10 * 1024 * 1024 * 1024
  if freeBytes < minFreeBytes then false
  else if freeBytes < estimatedMaxSize + minFreeBytes then false
  else true

/-- The post-fetch file search of `download` (src/downloader.py lines 214-226):
prefer the path the progress hook recorded when it is truthy and exists,
otherwise scan the directory for a `{vod_id}_` prefix. -/
def downloadFallback (env : DownloadEnv) (vodId : String) : Option String :=
  match env.dirAfter.find? (fun f => strStarts f.name (vodId ++ "_")) with
  | some f => some (filePathOf env f)
  | none => none

/-- `VODDownloader.download` (src/downloader.py lines 153-231), with the yt-dlp
call injected.  Returns the resulting path and whether the fetch collaborator
was invoked at all. -/
def download (env : DownloadEnv) (vodId : String) : Option String × Bool :=
  match findExistingFile env vodId with
  | some existing => (some existing, false)
  | none =>
    if !hasDiskSpace env.freeBytes then (none, false)
    else if env.fetchRaises then (none, true)
    else
      match env.hookFile with
      | some hf =>
        if hf ≠ "" && env.hookFileExists then (some hf, true)
        else (downloadFallback env vodId, true)
      | none => (downloadFallback env vodId, true)

/- ### Twitch source lister (src/twitch_api.py) -/

/-- Injected outcomes of the three HTTP interactions of `TwitchAPI`: the token
request, the `/users` lookup (list of returned user ids) and the `/videos`
listing.  `.error` stands for a raised `requests.RequestException`, which
`raise_for_status` also produces for HTTP error statuses. -/
structure TwitchEnv where
  authResult : Except Unit String
  usersResult : Except Unit (List String)
  videosResult : Except Unit (List Vod)

/-- `TwitchAPI.authenticate` (src/twitch_api.py lines 21-39): on success stores
the token and returns `True`; a `RequestException` is caught and yields `False`
with the token unchanged. -/
def authenticate (env : TwitchEnv) (tok : Option String) : Bool × Option String :=
  match env.authResult with
  | .ok t => (true, some t)
  | .error _ => (false, tok)

/-- The lazy-authentication preamble shared by `get_user_id` and `get_vods`:
`if not self.access_token: if not self.authenticate(): return ...`. -/
def ensureToken (env : TwitchEnv) (tok : Option String) : Bool × Option String :=
  if truthy tok then (true, tok) else authenticate env tok

/-- `TwitchAPI.get_user_id` (src/twitch_api.py lines 48-70): authenticate lazily,
query `/users`; a `RequestException` or an empty result list yields `None`. -/
def get_user_id (env : TwitchEnv) (tok : Option String) (_username : String) :
    Option String × Option String :=
  let p := ensureToken env tok
  if !p.1 then (none, p.2)
  else
    match env.usersResult with
    | .error _ => (none, p.2)
    | .ok [] => (none, p.2)
    | .ok (u :: _) => (some u, p.2)

/-- `TwitchAPI.get_vods` (src/twitch_api.py lines 72-118): authenticate lazily,
query `/videos`; a failed authentication or a `RequestException` yields `[]`. -/
def get_vods (env : TwitchEnv) (tok : Option String) :
    List Vod × Option String :=
  let p := ensureToken env tok
  if !p.1 then ([], p.2)
  else
    match env.videosResult with
    | .error _ => ([], p.2)
    | .ok vs => (vs, p.2)

/-- `TwitchAPI.get_channel_vods` (src/twitch_api.py lines 120-128): resolve the
user id, return `[]` when that fails, else list the videos. -/
def get_channel_vods (env : TwitchEnv) (tok : Option String) (channel : String) :
    List Vod × Option String :=
  let r := get_user_id env tok channel
  if !truthy r.1 then ([], r.2)
  else get_vods env r.2

/- ### YouTube uploader (src/youtube_upload.py) -/

/-- The `snippet`/`status` request body `upload` sends
(src/youtube_upload.py lines 215-226).  Title and description are Python
strings, modelled as their character sequences so that slicing is `List.take`. -/
structure SnippetBody where
  title : List Char
  description : List Char
  tags : List String
  categoryId : String
  privacyStatus : String
  selfDeclaredMadeForKids : Bool
  deriving DecidableEq, Repr

/-- Injected environment of one `YouTubeUploader.upload` call: whether the
client is authenticated (or `authenticate()` succeeds), whether the video file
exists, and the outcome of the resumable insert request (`.error` for a raised
`HttpError` or other exception). -/
structure UploadEnv where
  authOk : Bool
  fileExists : Bool
  insertResult : Except Unit String

/-- `YouTubeUploader.upload` (src/youtube_upload.py lines 173-285): bail out on
failed authentication or a missing file; truncate title to 100 and description
to 5000 characters (lines 207-209); send the insert request.  Returns the video
id (or `None`) and the request body when one was sent. -/
def upload (env : UploadEnv) (title description : List Char)
    (privacyStatus : String) (tags : Option (List String)) :
    Option String × Option SnippetBody :=
  if !env.authOk then (none, none)
  else if !env.fileExists then (none, none)
  else
    let body : SnippetBody :=
      { title := title.take 100, description := description.take 5000,
        tags := tags.getD [], categoryId := "20",
        privacyStatus := privacyStatus, selfDeclaredMadeForKids := false }
    match env.insertResult with
    | .ok vid => (some vid, some body)
    | .error _ => (none, some body)

/- ### Pipeline lemmas -/

theorem process_vod_fst (env : PipelineEnv) (st : ArchiverState) (vod : Vod) :
    (process_vod env st vod).1 = vodSucceeds env vod := by
  unfold process_vod vodSucceeds truthy
  cases hd : env.downloadResult vod with
  | none => simp
  | some fp =>
    by_cases hfp : fp = ""
    · simp [hfp]
    · cases hu : env.uploadResult vod with
      | none => simp [hfp]
      | some vid =>
        by_cases hv : vid = "" <;> simp [hfp, hv]

theorem attemptedIds_process_vod (env : PipelineEnv) (st : ArchiverState)
    (vod : Vod) :
    attemptedIds (process_vod env st vod).2.2 = [vod.id] := by
  unfold process_vod
  cases hd : env.downloadResult vod with
  | none => simp [attemptedIds]
  | some fp =>
    by_cases hfp : fp = ""
    · simp [hfp, attemptedIds]
    · cases hu : env.uploadResult vod with
      | none => simp [hfp, attemptedIds]
      | some vid =>
        by_cases hv : vid = ""
        · simp [hfp, hv, attemptedIds]
        · cases hdel : env.deleteAfterUpload <;>
            simp [hfp, hv, hdel, attemptedIds]

theorem attemptedIds_append (a b : List Event) :
    attemptedIds (a ++ b) = attemptedIds a ++ attemptedIds b := by
  simp [attemptedIds]

theorem processLoop_count (env : PipelineEnv) (vods : List Vod)
    (st : ArchiverState) :
    (processLoop env st vods).1 = (vods.takeWhile (vodSucceeds env)).length := by
  induction vods generalizing st with
  | nil => simp [processLoop]
  | cons v rest ih =>
    simp only [processLoop, process_vod_fst, List.takeWhile_cons]
    cases hs : vodSucceeds env v <;> simp [hs, ih]

theorem processLoop_attempted (env : PipelineEnv) (vods : List Vod)
    (st : ArchiverState) :
    attemptedIds (processLoop env st vods).2.2 =
      ((vods.takeWhile (vodSucceeds env)) ++
        (vods.dropWhile (vodSucceeds env)).take 1).map Vod.id := by
  induction vods generalizing st with
  | nil => simp [processLoop, attemptedIds]
  | cons v rest ih =>
    simp only [processLoop, process_vod_fst, List.takeWhile_cons,
      List.dropWhile_cons]
    cases hs : vodSucceeds env v with
    | true =>
      simp only [if_pos rfl, Bool.true_eq]
      simp [attemptedIds_append, attemptedIds_process_vod, ih]
    | false =>
      simp [attemptedIds_process_vod]

/- ### Concrete fixtures for witnesses and counterexamples -/

/-- An archiver state with an empty store and an empty persisted mapping. -/
def st0 : ArchiverState := ⟨[], .json (.obj [])⟩

def vodA : Vod :=
  ⟨"101", "First Stream", "2024-01-01T00:00:00Z", "1h0m0s",
    "https://www.twitch.tv/videos/101", "thumb101", ""⟩

def vodB : Vod :=
  ⟨"42", "T", "2024-03-03T00:00:00Z", "2h0m0s",
    "https://www.twitch.tv/videos/42", "thumb42", ""⟩

def envC1 : PipelineEnv :=
  { lister := [vodA], uploadAuth := true,
    downloadResult := fun _ => some "downloads/101_file.mp4",
    uploadResult := fun _ => some "yt101",
    deleteAfterUpload := false, now := "2024-02-02T00:00:00" }

def envC2 : PipelineEnv :=
  { lister := [vodB], uploadAuth := true,
    downloadResult := fun _ => some "downloads/42_f.mp4",
    uploadResult := fun _ => some "yt42",
    deleteAfterUpload := true, now := "2024-03-04T00:00:00" }

def envC9 : PipelineEnv :=
  { lister := [vodA], uploadAuth := true,
    downloadResult := fun _ => some "downloads/101_file.mp4",
    uploadResult := fun _ => none,
    deleteAfterUpload := true, now := "2024-02-02T00:00:00" }

/- ### Claim theorems -/

/-- Claim C1: no checkpoint without publish.  For every injected combination of
fetch and publish outcomes, if the checkpoint store (in-memory dictionary and
persisted snapshot) had no entry for the candidate's id before a `process_vod`
run and has one afterwards, then the publish step returned a successful (truthy)
destination id for it. -/
theorem no_checkpoint_without_publish (env : PipelineEnv) (st : ArchiverState)
    (vod : Vod)
    (h1 : getKey st.processedVods vod.id = none)
    (h2 : fileHasEntry st.file vod.id = false)
    (h3 : (getKey (process_vod env st vod).2.1.processedVods vod.id).isSome = true ∨
      fileHasEntry (process_vod env st vod).2.1.file vod.id = true) :
    truthy (env.uploadResult vod) = true := by
  unfold process_vod at h3
  cases hd : env.downloadResult vod with
  | none =>
    rw [hd] at h3
    simp [h1, h2] at h3
  | some fp =>
    rw [hd] at h3
    by_cases hfp : fp = ""
    · simp [hfp, h1, h2] at h3
    · cases hu : env.uploadResult vod with
      | none =>
        rw [hu] at h3
        simp [hfp, h1, h2] at h3
      | some vid =>
        rw [hu] at h3
        by_cases hv : vid = ""
        · simp [hfp, hv, h1, h2] at h3
        · simp [truthy, hv]

/-- Witness for C1: a fully successful run satisfies the hypotheses, and the
publish outcome is indeed truthy. -/
theorem no_checkpoint_without_publish_witness :
    truthy (envC1.uploadResult vodA) = true :=
  no_checkpoint_without_publish envC1 st0 vodA rfl rfl (Or.inl (by decide))

/-- Counterexample for C2: in a concrete successful run with
`delete_after_upload` enabled, the deletion of the local artifact occurs at an
earlier trace position than the checkpoint write, so the checkpoint is NOT
recorded before the deletion. -/
theorem delete_before_checkpoint_cex :
    (process_vod envC2 st0 vodB).1 = true ∧
    envC2.deleteAfterUpload = true ∧
    (process_vod envC2 st0 vodB).2.2 =
      [.fetchCalled "42", .publishCalled "42", .deleteFile "downloads/42_f.mp4",
        .checkpoint "42"] ∧
    (process_vod envC2 st0 vodB).2.2.indexOf
        (Event.deleteFile "downloads/42_f.mp4") <
      (process_vod envC2 st0 vodB).2.2.indexOf (Event.checkpoint "42") := by
  refine ⟨rfl, rfl, rfl, ?_⟩
  decide

/-- Claim C2 (amended): in every successful `process_vod` run with
`delete_after_upload` enabled, the trace is exactly fetch, publish, delete,
checkpoint — the deletion of the local artifact happens immediately BEFORE the
checkpoint entry is recorded (not after it), and both happen only after the
publish step succeeded. -/
theorem delete_precedes_checkpoint (env : PipelineEnv) (st : ArchiverState)
    (vod : Vod) (hdel : env.deleteAfterUpload = true)
    (hok : (process_vod env st vod).1 = true) :
    ∃ fp vid, env.downloadResult vod = some fp ∧
      env.uploadResult vod = some vid ∧
      (process_vod env st vod).2.2 =
        [.fetchCalled vod.id, .publishCalled vod.id, .deleteFile fp,
          .checkpoint vod.id] := by
  unfold process_vod at hok ⊢
  cases hd : env.downloadResult vod with
  | none =>
    rw [hd] at hok
    simp at hok
  | some fp =>
    rw [hd] at hok
    by_cases hfp : fp = ""
    · simp [hfp] at hok
    · cases hu : env.uploadResult vod with
      | none =>
        rw [hu] at hok
        simp [hfp] at hok
      | some vid =>
        rw [hu] at hok
        by_cases hv : vid = ""
        · simp [hfp, hv] at hok
        · exact ⟨fp, vid, rfl, rfl, by simp [hfp, hv, hdel]⟩

/-- Witness for the amended C2: the concrete successful delete-enabled run has
the fetch, publish, delete, checkpoint trace. -/
theorem delete_precedes_checkpoint_witness :
    (process_vod envC2 st0 vodB).2.2 =
      [.fetchCalled "42", .publishCalled "42", .deleteFile "downloads/42_f.mp4",
        .checkpoint "42"] := by
  obtain ⟨fp, vid, hd, hu, hev⟩ := delete_precedes_checkpoint envC2 st0 vodB rfl rfl
  have hfp : "downloads/42_f.mp4" = fp := Option.some.inj hd
  subst hfp
  simpa using hev

/-- Claim C9: publish failure preserves the fetched artifact.  If fetch produced
a truthy local path but publish returned a falsy result, `process_vod` returns
failure, leaves the checkpoint store (memory and file) unchanged, and emits no
file deletion. -/
theorem publish_failure_preserves_artifact (env : PipelineEnv)
    (st : ArchiverState) (vod : Vod) (fp : String)
    (hd : env.downloadResult vod = some fp) (hfp : fp ≠ "")
    (hu : truthy (env.uploadResult vod) = false) :
    (process_vod env st vod).1 = false ∧
    (process_vod env st vod).2.1 = st ∧
    ∀ p, Event.deleteFile p ∉ (process_vod env st vod).2.2 := by
  unfold process_vod
  rw [hd]
  cases hup : env.uploadResult vod with
  | none => simp [hfp]
  | some vid =>
    have hv : vid = "" := by
      rw [hup] at hu
      simpa [truthy] using hu
    simp [hfp, hv]

/-- Witness for C9: a concrete run with a successful fetch and a failed publish
returns failure, keeps the state, and deletes nothing. -/
theorem publish_failure_preserves_artifact_witness :
    (process_vod envC9 st0 vodA).1 = false ∧
    (process_vod envC9 st0 vodA).2.1 = st0 ∧
    Event.deleteFile "downloads/101_file.mp4" ∉ (process_vod envC9 st0 vodA).2.2 := by
  have h := publish_failure_preserves_artifact envC9 st0 vodA
    "downloads/101_file.mp4" rfl (by decide) rfl
  exact ⟨h.1, h.2.1, h.2.2 _⟩

/-- Claim C3: stop on first failure and success count.  With the publisher
authenticated, `run_once` returns the length of the longest successful prefix of
the filtered candidate list, and the attempted candidates are exactly that
prefix followed by the first failing candidate (if any), in listed order —
everything after the first failure is never attempted. -/
theorem run_once_stop_on_first_failure (env : PipelineEnv) (st : ArchiverState)
    (hauth : env.uploadAuth = true) :
    (run_once env st).1 =
      ((checkForNewVods env st).takeWhile (vodSucceeds env)).length ∧
    attemptedIds (run_once env st).2.2 =
      (((checkForNewVods env st).takeWhile (vodSucceeds env)) ++
        ((checkForNewVods env st).dropWhile (vodSucceeds env)).take 1).map Vod.id := by
  have hre : run_once env st =
      if (checkForNewVods env st).isEmpty then (0, st, [])
      else if !env.uploadAuth then (0, st, [])
      else processLoop env st (checkForNewVods env st) := rfl
  cases hN : checkForNewVods env st with
  | nil =>
    rw [hre, hN]
    simp [attemptedIds]
  | cons v rest =>
    rw [hre, hN]
    simp [hauth, processLoop_count, processLoop_attempted]

def vodX : Vod := ⟨"1", "A", "2024-01-01T00:00:00Z", "1h", "u1", "t1", ""⟩

def vodY : Vod := ⟨"2", "B", "2024-01-02T00:00:00Z", "1h", "u2", "t2", ""⟩

def vodZ : Vod := ⟨"3", "C", "2024-01-03T00:00:00Z", "1h", "u3", "t3", ""⟩

/-- Three candidates where only the second's publish step fails. -/
def envC3 : PipelineEnv :=
  { lister := [vodX, vodY, vodZ], uploadAuth := true,
    downloadResult := fun v => some ("downloads/" ++ v.id ++ "_f.mp4"),
    uploadResult := fun v => if v.id = "2" then none else some ("yt" ++ v.id),
    deleteAfterUpload := false, now := "2024-01-04T00:00:00" }

/-- Witness for C3: with three candidates whose second publish fails, `run_once`
returns 1, the first two candidates are attempted in order, and the third is
never attempted. -/
theorem run_once_stop_on_first_failure_witness :
    (run_once envC3 st0).1 = 1 ∧
    attemptedIds (run_once envC3 st0).2.2 = ["1", "2"] := by
  have h := run_once_stop_on_first_failure envC3 st0 rfl
  exact ⟨h.1.trans (by decide), h.2.trans (by decide)⟩

/-- Claim C4: legacy migration correctness.  Starting the controller on a
persisted bare JSON array of id strings yields, in one step, a persisted keyed
mapping (equal to the in-memory one) holding, for exactly the listed ids, an
entry whose destination id (`youtube_id`) and title are null; a subsequent
`is_processed` query for any migrated id returns true, and no other entry has
been added. -/
theorem legacy_migration_correct (ids : List String) :
    startupProcessed (.json (.arr (ids.map Json.str))) =
      .ok (.obj (buildDict migrateEntryJson ids),
        .json (.obj (buildDict migrateEntryJson ids))) ∧
    (∀ id, id ∈ ids → getKey (buildDict migrateEntryJson ids) id =
      some (Json.obj [("twitch_id", .str id), ("youtube_id", .null),
        ("title", .null), ("uploaded_at", .null)])) ∧
    (∀ id, id ∉ ids → getKey (buildDict migrateEntryJson ids) id = none) ∧
    (∀ id, id ∈ ids → isProcessed (buildDict migrateEntryJson ids) id = true) := by
  refine ⟨?_, ?_, ?_, ?_⟩
  · simp [startupProcessed, loadProcessed, migrateProcessedFormat, asStrings_map_str]
  · intro id hid
    simp [getKey_buildDict, hid, migrateEntryJson]
  · intro id hid
    simp [getKey_buildDict, hid]
  · intro id hid
    simp [isProcessed, getKey_buildDict, hid]

/-- Witness for C4: the spec's example file `["111","222"]` migrates to the
keyed form, the entry for `"111"` has null destination id and title, the id
`"333"` was not added, and `is_processed("111")` is true. -/
theorem legacy_migration_correct_witness :
    startupProcessed (.json (.arr [.str "111", .str "222"])) =
      .ok (.obj (buildDict migrateEntryJson ["111", "222"]),
        .json (.obj (buildDict migrateEntryJson ["111", "222"]))) ∧
    getKey (buildDict migrateEntryJson ["111", "222"]) "111" =
      some (Json.obj [("twitch_id", .str "111"), ("youtube_id", .null),
        ("title", .null), ("uploaded_at", .null)]) ∧
    getKey (buildDict migrateEntryJson ["111", "222"]) "333" = none ∧
    isProcessed (buildDict migrateEntryJson ["111", "222"]) "111" = true := by
  have h := legacy_migration_correct ["111", "222"]
  exact ⟨h.1, h.2.1 "111" (by decide), h.2.2.1 "333" (by decide),
    h.2.2.2 "111" (by decide)⟩

/-- Claim C5: resume idempotence of fetch.  If the download directory contains a
regular file named `{vod_id}_...` with a recognized media extension and non-zero
size, `download` returns such an existing file's path and never invokes the
fetch collaborator. -/
theorem download_skips_existing_artifact (env : DownloadEnv) (vodId : String)
    (f : DirFile) (hmem : f ∈ env.dirListing)
    (hmatch : matchesExisting vodId f = true)
    (hraise : env.iterdirRaises = false) :
    (download env vodId).2 = false ∧
    ∃ g, g ∈ env.dirListing ∧ matchesExisting vodId g = true ∧
      (download env vodId).1 = some (filePathOf env g) := by
  obtain ⟨g, hg⟩ : ∃ g, env.dirListing.find? (matchesExisting vodId) = some g := by
    cases hF : env.dirListing.find? (matchesExisting vodId) with
    | some g => exact ⟨g, rfl⟩
    | none =>
      have := List.find?_eq_none.mp hF f hmem
      simp [hmatch] at this
  have hgmem : g ∈ env.dirListing := List.mem_of_find?_eq_some hg
  have hgmatch : matchesExisting vodId g = true := List.find?_some hg
  have hdl : download env vodId = (some (filePathOf env g), false) := by
    unfold download findExistingFile
    rw [hraise, hg]
    simp
  rw [hdl]
  exact ⟨rfl, g, hgmem, hgmatch, rfl⟩

/-- A download directory holding a finished artifact for VOD 123. -/
def fileC5 : DirFile := ⟨"123_Atrioc VOD - 01-02-2024.mp4", true, 1000⟩

def envC5 : DownloadEnv :=
  { dirPath := "downloads", dirListing := [fileC5], iterdirRaises := false,
    freeBytes := 0, fetchRaises := true, hookFile := none,
    hookFileExists := false, dirAfter := [] }

/-- Witness for C5: with the artifact on disk, `download` returns its path
without invoking the fetch collaborator (even though the injected fetch would
fail and the disk is full). -/
theorem download_skips_existing_artifact_witness :
    (download envC5 "123").2 = false ∧
    (download envC5 "123").1 = some "downloads/123_Atrioc VOD - 01-02-2024.mp4" := by
  have h := download_skips_existing_artifact envC5 "123" fileC5 (by decide)
    (by decide) rfl
  obtain ⟨h1, g, hgmem, _, hres⟩ := h
  have hg : g = fileC5 := by simpa [envC5] using hgmem
  subst hg
  exact ⟨h1, by simpa using hres⟩

/-- Claim C6: record/load round-trip.  Recording an entry with `_mark_processed`
and then freshly loading the persisted snapshot with `_load_processed` yields an
entry for that id equal in all recorded fields: source id, destination id,
title, stream timestamp, and archived-at timestamp. -/
theorem record_load_round_trip (st : ArchiverState)
    (vodId ytId title sd now : String) :
    loadProcessed (markProcessed st vodId (some ytId) (some title) (some sd) now).file =
      .ok (.obj (markProcessed st vodId (some ytId) (some title) (some sd) now).processedVods) ∧
    getKey (markProcessed st vodId (some ytId) (some title) (some sd) now).processedVods
        vodId =
      some (.obj [("twitch_id", .str vodId), ("youtube_id", .str ytId),
        ("title", .str title), ("stream_date", .str sd),
        ("uploaded_at", .str now)]) := by
  constructor
  · rfl
  · simp [markProcessed, getKey_setKey, jsonOfOpt]

/- ### Source-lister helper lemmas -/

theorem get_user_id_users_error (env : TwitchEnv) (tok : Option String)
    (ch : String) (h : env.usersResult = .error ()) :
    (get_user_id env tok ch).1 = none := by
  unfold get_user_id ensureToken authenticate
  cases hT : truthy tok <;> cases hA : env.authResult <;> simp [h]

theorem get_vods_videos_error (env : TwitchEnv) (tok : Option String)
    (h : env.videosResult = .error ()) :
    (get_vods env tok).1 = [] := by
  unfold get_vods ensureToken authenticate
  cases hT : truthy tok <;> cases hA : env.authResult <;> simp [h]

/-- Claim C7: the source lister fails closed.  If the token fetch raises (while
no cached token is truthy), or the user lookup raises, or the video listing
raises, then `get_channel_vods` returns the empty sequence instead of
propagating the error. -/
theorem lister_fails_closed (env : TwitchEnv) (tok : Option String)
    (channel : String)
    (h : (truthy tok = false ∧ env.authResult = .error ()) ∨
      env.usersResult = .error () ∨ env.videosResult = .error ()) :
    (get_channel_vods env tok channel).1 = [] := by
  rcases h with ⟨ht, ha⟩ | h | h
  · have h1 : get_user_id env tok channel = (none, tok) := by
      unfold get_user_id ensureToken authenticate
      rw [ht, ha]
      simp
    unfold get_channel_vods
    rw [h1]
    simp [truthy]
  · have h1 : (get_user_id env tok channel).1 = none :=
      get_user_id_users_error env tok channel h
    unfold get_channel_vods
    simp [h1, truthy]
  · unfold get_channel_vods
    cases hU : (get_user_id env tok channel).1 with
    | none => simp [hU, truthy]
    | some u =>
      by_cases hu : u = ""
      · simp [hU, hu, truthy]
      · simp [hU, hu, truthy, get_vods_videos_error env _ h]

/-- An environment where the user lookup raises a transport error
while everything else would succeed. -/
def envC7 : TwitchEnv :=
  { authResult := .ok "tok", usersResult := .error (),
    videosResult := .ok [vodA] }

/-- Witness for C7: with a raised user-lookup error, `get_channel_vods`
returns the empty list. -/
theorem lister_fails_closed_witness :
    (get_channel_vods envC7 none "atrioc").1 = [] :=
  lister_fails_closed envC7 none "atrioc" (Or.inr (Or.inl rfl))

/-- Counterexample for C8: a checkpoint file holding the valid JSON value `5`
is neither missing nor malformed, yet `_load_processed` returns the scalar `5`
itself — not the empty store and not a mapping — so the claim's "otherwise it
returns the parsed mapping" is false for this file state. -/
theorem load_nonmapping_cex :
    loadProcessed (.json (.num 5)) = .ok (.num 5) ∧
    (Json.num 5).isObj = false ∧
    Json.num 5 ≠ Json.obj [] :=
  ⟨rfl, rfl, fun h => Json.noConfusion h⟩

/-- Claim C8 (amended): checkpoint load fails soft.  A missing or malformed
file yields the empty store; a legacy bare list of id strings is converted to a
keyed mapping in memory (every listed id gets its minimal entry); and any other
parsed JSON value — a mapping in particular — is returned unchanged, which is a
mapping exactly when the file held one.  (A legacy array containing non-string
elements is outside the model: there Python builds non-string dictionary keys
or raises `TypeError`.) -/
theorem load_fails_soft :
    loadProcessed .missing = .ok (.obj []) ∧
    loadProcessed .corrupt = .ok (.obj []) ∧
    (∀ j : Json, j.isArr = false → loadProcessed (.json j) = .ok j) ∧
    (∀ ss : List String,
      loadProcessed (.json (.arr (ss.map Json.str))) =
        .ok (.obj (buildDict (fun s => .obj [("twitch_id", .str s)]) ss)) ∧
      ∀ s, s ∈ ss →
        getKey (buildDict (fun s => .obj [("twitch_id", .str s)]) ss) s =
          some (.obj [("twitch_id", .str s)])) := by
  refine ⟨rfl, rfl, ?_, ?_⟩
  · intro j hj
    cases j <;> first | rfl | simp [Json.isArr] at hj
  · intro ss
    refine ⟨by simp [loadProcessed, asStrings_map_str], ?_⟩
    intro s hs
    simp [getKey_buildDict, hs]

/-- Witness for the amended C8: a legacy file `["111"]` loads as the keyed
conversion with an entry for `"111"`, and an ordinary mapping file loads
unchanged. -/
theorem load_fails_soft_witness :
    loadProcessed (.json (.arr [.str "111"])) =
      .ok (.obj (buildDict (fun s => .obj [("twitch_id", .str s)]) ["111"])) ∧
    getKey (buildDict (fun s => Json.obj [("twitch_id", .str s)]) ["111"]) "111" =
      some (.obj [("twitch_id", .str "111")]) ∧
    loadProcessed (.json (.obj [])) = .ok (.obj []) := by
  have h := load_fails_soft
  exact ⟨(h.2.2.2 ["111"]).1, (h.2.2.2 ["111"]).2 "111" (by decide),
    h.2.2.1 (.obj []) rfl⟩

/-- Claim C10: the upload operation truncates its inputs to the destination
platform's limits.  Whenever `upload` sends a request body, its title is the
first 100 characters of the given title and its description the first 5000
characters of the given description; inputs within those limits pass through
unchanged. -/
theorem upload_truncates_metadata (env : UploadEnv) (title desc : List Char)
    (privacyStatus : String) (tags : Option (List String)) (body : SnippetBody)
    (h : (upload env title desc privacyStatus tags).2 = some body) :
    body.title = title.take 100 ∧
    body.description = desc.take 5000 ∧
    (title.length ≤ 100 → body.title = title) ∧
    (desc.length ≤ 5000 → body.description = desc) := by
  unfold upload at h
  cases hA : env.authOk with
  | false =>
    rw [hA] at h
    simp at h
  | true =>
    cases hF : env.fileExists with
    | false =>
      rw [hA, hF] at h
      simp at h
    | true =>
      rw [hA, hF] at h
      cases hI : env.insertResult with
      | ok vid =>
        rw [hI] at h
        simp at h
        refine h ▸ ⟨rfl, rfl, ?_, ?_⟩
        · intro hlen
          exact List.take_of_length_le hlen
        · intro hlen
          exact List.take_of_length_le hlen
      | error e =>
        rw [hI] at h
        simp at h
        refine h ▸ ⟨rfl, rfl, ?_, ?_⟩
        · intro hlen
          exact List.take_of_length_le hlen
        · intro hlen
          exact List.take_of_length_le hlen

def envC10 : UploadEnv :=
  { authOk := true, fileExists := true, insertResult := .ok "ytid" }

/-- A 102-character title (the archiver passes the raw Twitch title through). -/
def longTitle : List Char := List.replicate 102 'a'

/-- The body `upload` sends for `longTitle` and a short description. -/
def bodyC10 : SnippetBody :=
  { title := List.replicate 100 'a', description := "short desc".toList,
    tags := ["Twitch", "VOD"], categoryId := "20",
    privacyStatus := "unlisted", selfDeclaredMadeForKids := false }

/-- Witness for C10: a 102-character title is cut to its first 100 characters
and a short description passes through unchanged. -/
theorem upload_truncates_metadata_witness :
    (upload envC10 longTitle "short desc".toList "unlisted"
      (some ["Twitch", "VOD"])).2 = some bodyC10 ∧
    bodyC10.title = longTitle.take 100 ∧
    bodyC10.description = "short desc".toList := by
  have h := upload_truncates_metadata envC10 longTitle "short desc".toList
    "unlisted" (some ["Twitch", "VOD"]) bodyC10 (by decide)
  exact ⟨by decide, h.1, h.2.2.2 (by decide)⟩

end BigVods
